import Mathlib

/-!
Verification of the user session store
(`packages/editor-ui/src/stores/users.store.ts`).

The store is embedded shallowly:

* the reactive `users` object is a mapping `String → Option IUser`;
* every async action is modelled as a pure state transformer that takes
  the result of its remote API call as an explicit argument
  (`Except String _` for calls that can fail in transport,
  `Option IUserResponse` for calls whose response may be empty/falsy);
* JavaScript object-spread `{...old, ...new}` is modelled field-wise by
  `spreadField` (a field absent from the new object keeps the old value);
* JavaScript truthiness of optional strings/booleans is modelled by
  `jsTruthyStr` / `jsTruthyBool` (absent and the empty string are falsy).
-/

/-- A role descriptor; the store only ever reads `.name`
(`user.globalRole.name`). -/
structure IRole where
  name : String
deriving DecidableEq, Repr

/-- The `ROLE.Owner` constant from `@/utils`. -/
def ROLE_Owner : String := "owner"

/-- A raw user response as returned by the API (`IUserResponse`).
Optional fields are `Option`; `none` models an absent property.
`id := ""` as a default only serves to build the empty object `{}` used
when no previous record exists; the merge always overwrites `id` with the
response's id. -/
structure IUserResponse where
  id : String := ""
  firstName : Option String := none
  lastName : Option String := none
  email : Option String := none
  globalRole : Option IRole := none
  settings : Option String := none
  isPending : Option Bool := none
  personalizationAnswers : Option String := none
  mfaEnabled : Option Bool := none
deriving DecidableEq, Repr

attribute [ext] IUserResponse

/-- A stored user record (`IUser`): the raw response fields plus the
full name and the three derived booleans computed at merge time. -/
structure IUser extends IUserResponse where
  fullName : Option String := none
  isDefaultUser : Bool := false
  isPendingUser : Bool := false
  isOwner : Bool := false
deriving DecidableEq, Repr

attribute [ext] IUser

/-- One field of the object spread `{...old, ...new}`: a property present
on the new object wins, an absent property keeps the old value. -/
def spreadField (new old : Option α) : Option α :=
  match new with
  | some v => some v
  | none => old

/-- JavaScript truthiness of an optional string: absent (`undefined`) and
the empty string are falsy. -/
def jsTruthyStr (s : Option String) : Bool :=
  match s with
  | some v => decide (v ≠ "")
  | none => false

/-- JavaScript truthiness of an optional boolean. -/
def jsTruthyBool (b : Option Bool) : Bool :=
  b.getD false

/-- `s || ''` on an optional string. -/
def jsStrOrEmpty (s : Option String) : String :=
  if jsTruthyStr s then s.getD "" else ""

/-- String interpolation of an optional string. -/
def jsTemplateStr (s : Option String) : String :=
  match s with
  | some v => v
  | none => "undefined"

/-- `user.globalRole?.name === ROLE.Owner`. -/
def roleNameIsOwner (g : Option IRole) : Bool :=
  match g with
  | some role => role.name == ROLE_Owner
  | none => false

/-- Module-level helper `isDefaultUser`:
`Boolean(user && user.isPending && user.globalRole && user.globalRole.name === ROLE.Owner)`. -/
def isDefaultUser (user : Option IUserResponse) : Bool :=
  match user with
  | none => false
  | some u => jsTruthyBool u.isPending && u.globalRole.isSome && roleNameIsOwner u.globalRole

/-- Module-level helper `isPendingUser`: `Boolean(user && user.isPending)`. -/
def isPendingUser (user : Option IUserResponse) : Bool :=
  match user with
  | none => false
  | some u => jsTruthyBool u.isPending

/-- Module-level helper `isInstanceOwner`:
`Boolean(user?.globalRole?.name === ROLE.Owner)`. -/
def isInstanceOwner (user : Option IUserResponse) : Bool :=
  match user with
  | none => false
  | some u => roleNameIsOwner u.globalRole

/-- The store state (`IUsersState`): `initialized`, `currentUserId`,
the `users` mapping, and the opaque `currentUserCloudInfo` blob. -/
@[ext]
structure IUsersState where
  initialized : Bool := false
  currentUserId : Option String := none
  users : String → Option IUser := fun _ => none
  currentUserCloudInfo : Option String := none

/-- The store's initial `state()`. -/
def initialState : IUsersState := {}

/-- The `currentUser` getter:
`this.currentUserId ? this.users[this.currentUserId] : null`. -/
def currentUser (state : IUsersState) : Option IUser :=
  match state.currentUserId with
  | none => none
  | some i => state.users i

/-- The per-user body of `addUsers`:
`prevUser = this.users[id] || {}`, `updatedUser = {...prevUser, ...userResponse}`,
then recompute `fullName` and the three derived booleans. -/
def mergeUserResponse (prevOpt : Option IUser) (userResponse : IUserResponse) : IUser :=
  let prevUser : IUser := prevOpt.getD {}
  let updatedUser : IUser :=
    { id := userResponse.id
      firstName := spreadField userResponse.firstName prevUser.firstName
      lastName := spreadField userResponse.lastName prevUser.lastName
      email := spreadField userResponse.email prevUser.email
      globalRole := spreadField userResponse.globalRole prevUser.globalRole
      settings := spreadField userResponse.settings prevUser.settings
      isPending := spreadField userResponse.isPending prevUser.isPending
      personalizationAnswers :=
        spreadField userResponse.personalizationAnswers prevUser.personalizationAnswers
      mfaEnabled := spreadField userResponse.mfaEnabled prevUser.mfaEnabled
      -- the response type has no fullName or derived-boolean properties,
      -- so the spread keeps the previous values of those fields
      fullName := prevUser.fullName
      isDefaultUser := prevUser.isDefaultUser
      isPendingUser := prevUser.isPendingUser
      isOwner := prevUser.isOwner }
  { updatedUser with
    fullName :=
      if jsTruthyStr userResponse.firstName then
        some (jsTemplateStr updatedUser.firstName ++ " " ++ jsStrOrEmpty updatedUser.lastName)
      else none
    isDefaultUser := isDefaultUser (some updatedUser.toIUserResponse)
    isPendingUser := isPendingUser (some updatedUser.toIUserResponse)
    isOwner := roleNameIsOwner updatedUser.globalRole }

/-- `addUsers`: fold the per-user merge over the response list, writing each
merged record back into the `users` mapping under its id. -/
def addUsers (state : IUsersState) (users : List IUserResponse) : IUsersState :=
  users.foldl
    (fun st userResponse =>
      let user := mergeUserResponse (st.users userResponse.id) userResponse
      { st with users := fun k => if k = user.id then some user else st.users k })
    state

/-- `deleteUserById`: remove one key from the mapping
(`const { [userId]: _, ...users } = this.users`). -/
def deleteUserById (state : IUsersState) (userId : String) : IUsersState :=
  { state with users := fun k => if k = userId then none else state.users k }

/-- `setPersonalizationAnswers`: a no-op without a current user; otherwise
write the answers onto the current user's record. -/
def setPersonalizationAnswers (state : IUsersState) (answers : String) : IUsersState :=
  match currentUser state with
  | none => state
  | some cu =>
    { state with users := fun k =>
        if k = cu.id then some { cu with personalizationAnswers := some answers }
        else state.users k }

/-- `loginWithCookie`, applied to the response of `loginCurrentUser`:
an empty response is a silent no-op; otherwise merge the user and set it
as current.  (The analytics call has no effect on this store's state.) -/
def loginWithCookie (state : IUsersState) (user : Option IUserResponse) : IUsersState :=
  match user with
  | none => state
  | some u =>
    let s1 := addUsers state [u]
    { s1 with currentUserId := some u.id }

/-- `loginWithCreds`, applied to the response of `login`: same state
update as `loginWithCookie`. -/
def loginWithCreds (state : IUsersState) (user : Option IUserResponse) : IUsersState :=
  match user with
  | none => state
  | some u =>
    let s1 := addUsers state [u]
    { s1 with currentUserId := some u.id }

/-- `createOwner`, applied to the response of `setupOwner`: merge and set
current when the response is non-empty.  (`stopShowingSetupPage` acts on
the settings store, not on this state.) -/
def createOwner (state : IUsersState) (user : Option IUserResponse) : IUsersState :=
  match user with
  | none => state
  | some u =>
    let s1 := addUsers state [u]
    { s1 with currentUserId := some u.id }

/-- `acceptInvitation` (store action), applied to the response of the
`acceptInvitation` API call: merge and set current when non-empty. -/
def acceptInvitation (state : IUsersState) (user : Option IUserResponse) : IUsersState :=
  match user with
  | none => state
  | some u =>
    let s1 := addUsers state [u]
    { s1 with currentUserId := some u.id }

/-- `logout`, applied to the result of the remote `logout` call: the call
happens first, so a failed call propagates and leaves the state untouched;
a successful call clears `currentUserId` and `currentUserCloudInfo`.
(The cloud-plan reset, analytics reset and banner clear act on other
stores.) -/
def logout (state : IUsersState) (apiResult : Except String Unit) :
    IUsersState × Except String Unit :=
  match apiResult with
  | Except.error e => (state, Except.error e)
  | Except.ok _ =>
    ({ state with currentUserId := none, currentUserCloudInfo := none }, Except.ok ())

/-- `fetchUserCloudAccount`, applied to the `getCloudUserInfo` result: on
success store the blob; on failure the caught error is re-thrown (the
re-wrapping into a fresh error object keeps only the message). -/
def fetchUserCloudAccount (state : IUsersState) (result : Except String String) :
    IUsersState × Except String Unit :=
  match result with
  | Except.error e => (state, Except.error e)
  | Except.ok cloudUser => ({ state with currentUserCloudInfo := some cloudUser }, Except.ok ())

/-- The body of the `try` block of `initialize`: run `loginWithCookie`
(which may fail in transport), then set `initialized`. -/
def initializeAttempt (state : IUsersState)
    (loginResult : Except String (Option IUserResponse)) : Except String IUsersState :=
  match loginResult with
  | Except.error e => Except.error e
  | Except.ok u => Except.ok { loginWithCookie state u with initialized := true }

/-- The `initialize` action: a no-op when already initialized; otherwise
run the attempt and swallow any failure (`catch (e) {}`), so the caller
always receives a plain state and never an error. -/
def initializeAction (state : IUsersState)
    (loginResult : Except String (Option IUserResponse)) : IUsersState :=
  if state.initialized then state
  else
    match initializeAttempt state loginResult with
    | Except.error _ => state
    | Except.ok s => s

/-- The `user` part of an `IInviteResponse`. -/
structure IInvitedUser where
  id : String := ""
  email : String := ""
  emailSent : Bool := false
deriving DecidableEq, Repr

/-- One element of the `inviteUsers` API response. -/
structure IInviteResponse where
  user : IInvitedUser
  error : Option String := none
deriving DecidableEq, Repr

/-- `reinviteUser`, applied to the `inviteUsers` response: throw
`Error(invitationResponse[0].error)` when the first result's `emailSent`
is false.  (Indexing an empty response list throws a TypeError in the
source; `Error(undefined)` carries an empty message.) -/
def reinviteUser (invitationResponse : List IInviteResponse) : Except String Unit :=
  match invitationResponse with
  | [] => Except.error "TypeError"
  | first :: _ =>
    if first.user.emailSent then Except.ok ()
    else Except.error (first.error.getD "")

/-! ## Helper lemmas -/

/-- Unfolding `addUsers` on a one-element list. -/
lemma addUsers_single (s : IUsersState) (u : IUserResponse) :
    addUsers s [u] =
      { s with users := fun k =>
          if k = u.id then some (mergeUserResponse (s.users u.id) u) else s.users k } := rfl

lemma spreadField_idem (a b : Option α) : spreadField a (spreadField a b) = spreadField a b := by
  cases a <;> rfl

/-- Merging the same response a second time reproduces the same record. -/
lemma mergeUserResponse_idem (u : IUserResponse) (p : Option IUser) :
    mergeUserResponse (some (mergeUserResponse p u)) u = mergeUserResponse p u := by
  simp only [mergeUserResponse, Option.getD_some]
  ext <;> simp [spreadField_idem]

/-- `addUsers` leaves every state field other than `users` unchanged. -/
lemma addUsers_preserves_frame (l : List IUserResponse) (s : IUsersState) :
    (addUsers s l).initialized = s.initialized ∧
    (addUsers s l).currentUserId = s.currentUserId ∧
    (addUsers s l).currentUserCloudInfo = s.currentUserCloudInfo := by
  induction l generalizing s with
  | nil => exact ⟨rfl, rfl, rfl⟩
  | cons u t ih => exact ih _

lemma jsTruthyBool_iff (b : Option Bool) : jsTruthyBool b = true ↔ b = some true := by
  cases b with
  | none => simp [jsTruthyBool]
  | some v => cases v <;> simp [jsTruthyBool]

lemma roleNameIsOwner_iff (g : Option IRole) :
    roleNameIsOwner g = true ↔ ∃ role, g = some role ∧ role.name = ROLE_Owner := by
  cases g <;> simp [roleNameIsOwner]

lemma jsStrOrEmpty_eq_getD (s : Option String) : jsStrOrEmpty s = s.getD "" := by
  cases s with
  | none => rfl
  | some v =>
    by_cases hv : v = "" <;> simp [jsStrOrEmpty, jsTruthyStr, hv]

lemma mergeUserResponse_id (p : Option IUser) (u : IUserResponse) :
    (mergeUserResponse p u).id = u.id := rfl

lemma mergeUserResponse_firstName (p : Option IUser) (u : IUserResponse) :
    (mergeUserResponse p u).firstName = spreadField u.firstName (p.getD {}).firstName := rfl

lemma mergeUserResponse_lastName (p : Option IUser) (u : IUserResponse) :
    (mergeUserResponse p u).lastName = spreadField u.lastName (p.getD {}).lastName := rfl

lemma mergeUserResponse_email (p : Option IUser) (u : IUserResponse) :
    (mergeUserResponse p u).email = spreadField u.email (p.getD {}).email := rfl

lemma mergeUserResponse_globalRole (p : Option IUser) (u : IUserResponse) :
    (mergeUserResponse p u).globalRole = spreadField u.globalRole (p.getD {}).globalRole := rfl

lemma mergeUserResponse_settings (p : Option IUser) (u : IUserResponse) :
    (mergeUserResponse p u).settings = spreadField u.settings (p.getD {}).settings := rfl

lemma mergeUserResponse_isPending (p : Option IUser) (u : IUserResponse) :
    (mergeUserResponse p u).isPending = spreadField u.isPending (p.getD {}).isPending := rfl

lemma mergeUserResponse_personalizationAnswers (p : Option IUser) (u : IUserResponse) :
    (mergeUserResponse p u).personalizationAnswers =
      spreadField u.personalizationAnswers (p.getD {}).personalizationAnswers := rfl

lemma mergeUserResponse_mfaEnabled (p : Option IUser) (u : IUserResponse) :
    (mergeUserResponse p u).mfaEnabled = spreadField u.mfaEnabled (p.getD {}).mfaEnabled := rfl

lemma mergeUserResponse_fullName (p : Option IUser) (u : IUserResponse) :
    (mergeUserResponse p u).fullName =
      (if jsTruthyStr u.firstName then
        some (jsTemplateStr (mergeUserResponse p u).firstName ++ " " ++
          jsStrOrEmpty (mergeUserResponse p u).lastName)
      else none) := rfl

lemma mergeUserResponse_isDefaultUser (p : Option IUser) (u : IUserResponse) :
    (mergeUserResponse p u).isDefaultUser =
      (jsTruthyBool (mergeUserResponse p u).isPending &&
        ((mergeUserResponse p u).globalRole).isSome &&
        roleNameIsOwner (mergeUserResponse p u).globalRole) := rfl

lemma mergeUserResponse_isPendingUser (p : Option IUser) (u : IUserResponse) :
    (mergeUserResponse p u).isPendingUser = jsTruthyBool (mergeUserResponse p u).isPending := rfl

lemma mergeUserResponse_isOwner (p : Option IUser) (u : IUserResponse) :
    (mergeUserResponse p u).isOwner = roleNameIsOwner (mergeUserResponse p u).globalRole := rfl

/-- The three derived booleans as pure predicates of the pending flag and
the role. -/
lemma derived_booleans_pure (x : Option Bool) (g : Option IRole) :
    ((jsTruthyBool x && g.isSome && roleNameIsOwner g) = true ↔
      (x = some true ∧ ∃ role, g = some role ∧ role.name = ROLE_Owner)) ∧
    (jsTruthyBool x = true ↔ x = some true) ∧
    (roleNameIsOwner g = true ↔ ∃ role, g = some role ∧ role.name = ROLE_Owner) ∧
    (g = none → roleNameIsOwner g = false) := by
  refine ⟨?_, jsTruthyBool_iff x, roleNameIsOwner_iff g, ?_⟩
  · simp only [Bool.and_eq_true, jsTruthyBool_iff, roleNameIsOwner_iff, Option.isSome_iff_exists]
    constructor
    · rintro ⟨⟨hp, -⟩, role, hg, hn⟩
      exact ⟨hp, role, hg, hn⟩
    · rintro ⟨hp, role, hg, hn⟩
      exact ⟨⟨hp, role, hg⟩, role, hg, hn⟩
  · rintro rfl; rfl

/-! ## Claims -/

/-- Claim C1, counterexample: `addUsers` is not a pure field-wise overlay
of the stored record.  Storing a user with first and last name computes
`fullName = "A B"`; a follow-up settings-only response (which carries no
`fullName` field) resets `fullName` to `undefined` even though the raw
name fields are preserved, so a field of the previous record that is
absent from the response does not keep its value. -/
theorem addUsers_overlay_counterexample :
    (((addUsers initialState
        [{ id := "1", firstName := some "A", lastName := some "B" }]).users "1").map
      (fun r => r.fullName) = some (some "A B")) ∧
    (((addUsers
        (addUsers initialState [{ id := "1", firstName := some "A", lastName := some "B" }])
        [{ id := "1", settings := some "theme:dark" }]).users "1").map
      (fun r => r.fullName) = some none) ∧
    (((addUsers
        (addUsers initialState [{ id := "1", firstName := some "A", lastName := some "B" }])
        [{ id := "1", settings := some "theme:dark" }]).users "1").map
      (fun r => r.firstName) = some (some "A")) ∧
    (some (none : Option String) ≠ some (some "A B")) := ⟨rfl, rfl, rfl, by decide⟩

/-- Claim C1 (amended): for a response whose id is already stored, every
raw field absent from the response keeps its previous value (field-wise
overlay of the raw fields), while the derived `fullName` is recomputed:
it is reset to `undefined` whenever the response lacks a first name, so a
settings-only update preserves all raw fields but erases the previously
computed `fullName`. -/
theorem addUsers_overlay_spec (s : IUsersState) (u : IUserResponse) (prev : IUser)
    (h : s.users u.id = some prev) :
    ((addUsers s [u]).users u.id = some (mergeUserResponse (s.users u.id) u)) ∧
    ((mergeUserResponse (s.users u.id) u).id = u.id) ∧
    (u.firstName = none → (mergeUserResponse (s.users u.id) u).firstName = prev.firstName) ∧
    (u.lastName = none → (mergeUserResponse (s.users u.id) u).lastName = prev.lastName) ∧
    (u.email = none → (mergeUserResponse (s.users u.id) u).email = prev.email) ∧
    (u.globalRole = none → (mergeUserResponse (s.users u.id) u).globalRole = prev.globalRole) ∧
    (u.settings = none → (mergeUserResponse (s.users u.id) u).settings = prev.settings) ∧
    (u.isPending = none → (mergeUserResponse (s.users u.id) u).isPending = prev.isPending) ∧
    (u.personalizationAnswers = none →
      (mergeUserResponse (s.users u.id) u).personalizationAnswers =
        prev.personalizationAnswers) ∧
    (u.mfaEnabled = none → (mergeUserResponse (s.users u.id) u).mfaEnabled = prev.mfaEnabled) ∧
    (u.firstName = none → (mergeUserResponse (s.users u.id) u).fullName = none) := by
  refine ⟨by rw [addUsers_single]; simp, mergeUserResponse_id _ u,
    ?_, ?_, ?_, ?_, ?_, ?_, ?_, ?_, ?_⟩
  · intro hf; rw [mergeUserResponse_firstName, hf, h]; rfl
  · intro hf; rw [mergeUserResponse_lastName, hf, h]; rfl
  · intro hf; rw [mergeUserResponse_email, hf, h]; rfl
  · intro hf; rw [mergeUserResponse_globalRole, hf, h]; rfl
  · intro hf; rw [mergeUserResponse_settings, hf, h]; rfl
  · intro hf; rw [mergeUserResponse_isPending, hf, h]; rfl
  · intro hf; rw [mergeUserResponse_personalizationAnswers, hf, h]; rfl
  · intro hf; rw [mergeUserResponse_mfaEnabled, hf, h]; rfl
  · intro hf; rw [mergeUserResponse_fullName, hf]; rfl

/-- Claim C1, witness: a concrete settings-only update on a stored record
keeps the stored first name. -/
theorem addUsers_overlay_spec_witness :
    (({ id := "1", settings := some "theme:dark" } : IUserResponse).firstName = none) ∧
    ((mergeUserResponse
        ((addUsers initialState
          [{ id := "1", firstName := some "A", lastName := some "B" }]).users "1")
        { id := "1", settings := some "theme:dark" }).firstName =
      (mergeUserResponse (initialState.users "1")
        { id := "1", firstName := some "A", lastName := some "B" }).firstName) :=
  ⟨rfl,
    (addUsers_overlay_spec
      (addUsers initialState [{ id := "1", firstName := some "A", lastName := some "B" }])
      { id := "1", settings := some "theme:dark" }
      (mergeUserResponse (initialState.users "1")
        { id := "1", firstName := some "A", lastName := some "B" })
      rfl).2.2.1 rfl⟩

/-- Claim C2: `addUsers` is idempotent on identical input — merging the
same response twice in succession yields exactly the same store state
(in particular the same record for the response's id) as merging it
once. -/
theorem addUsers_idem (s : IUsersState) (u : IUserResponse) :
    addUsers (addUsers s [u]) [u] = addUsers s [u] := by
  rw [addUsers_single, addUsers_single]
  ext k : 2 <;> try rfl
  · by_cases hk : k = u.id
    · subst hk
      simp [mergeUserResponse_idem]
    · simp [hk]

/-- Claim C3, counterexample: a first name that is present but equal to
the empty string leaves `fullName` unset, although a last name is merged
— the recomputation triggers on JavaScript truthiness, not on presence,
so the claim's present-first-name case fails at `firstName = ""`. -/
theorem addUsers_fullName_counterexample :
    ({ id := "1", firstName := some "", lastName := some "B" } : IUserResponse).firstName.isSome
      = true ∧
    ((addUsers initialState
        [{ id := "1", firstName := some "", lastName := some "B" }]).users "1").map
      (fun r => r.fullName) = some none ∧
    some none ≠ some (some (" " ++ "B")) := ⟨rfl, rfl, by decide⟩

/-- Claim C3 (amended): when the incoming response carries a non-empty
first name `f`, the merged record's `fullName` is `f`, a space, and the
merged last name (empty when absent); when the response's first name is
absent — or present but the empty string — `fullName` is unset
(`undefined`), not an empty string, even if a last name is present. -/
theorem addUsers_fullName_spec (s : IUsersState) (u : IUserResponse) :
    ((addUsers s [u]).users u.id = some (mergeUserResponse (s.users u.id) u)) ∧
    (∀ f, u.firstName = some f → f ≠ "" →
      (mergeUserResponse (s.users u.id) u).fullName =
        some (f ++ " " ++ ((mergeUserResponse (s.users u.id) u).lastName).getD "")) ∧
    (u.firstName = none → (mergeUserResponse (s.users u.id) u).fullName = none) ∧
    (u.firstName = some "" → (mergeUserResponse (s.users u.id) u).fullName = none) := by
  refine ⟨by rw [addUsers_single]; simp, ?_, ?_, ?_⟩
  · intro f hf hne
    rw [mergeUserResponse_fullName, mergeUserResponse_firstName, hf]
    rw [show jsTruthyStr (some f) = true by simp [jsTruthyStr, hne]]
    rw [jsStrOrEmpty_eq_getD]
    rfl
  · intro hf
    rw [mergeUserResponse_fullName, hf]
    rfl
  · intro hf
    rw [mergeUserResponse_fullName, hf]
    rfl

/-- Claim C3, witness: merging a fresh user with first name `"A"` and
last name `"B"` computes `fullName = "A B"`. -/
theorem addUsers_fullName_spec_witness :
    (mergeUserResponse (initialState.users "1")
        { id := "1", firstName := some "A", lastName := some "B" }).fullName =
      some ("A" ++ " " ++
        ((mergeUserResponse (initialState.users "1")
          { id := "1", firstName := some "A", lastName := some "B" }).lastName).getD "") :=
  (addUsers_fullName_spec initialState
    { id := "1", firstName := some "A", lastName := some "B" }).2.1 "A" rfl (by decide)

/-- Claim C4: the record produced by `addUsers` has its three derived
booleans recomputed from the merged raw fields — `isDefaultUser` iff
pending with a role named Owner, `isPendingUser` iff pending, `isOwner`
iff the role name is Owner regardless of pending, and a record with no
role is neither owner nor default user. -/
theorem addUsers_derived_booleans (s : IUsersState) (u : IUserResponse) :
    ((addUsers s [u]).users u.id = some (mergeUserResponse (s.users u.id) u)) ∧
    ((mergeUserResponse (s.users u.id) u).isDefaultUser = true ↔
      ((mergeUserResponse (s.users u.id) u).isPending = some true ∧
        ∃ role, (mergeUserResponse (s.users u.id) u).globalRole = some role ∧
          role.name = ROLE_Owner)) ∧
    ((mergeUserResponse (s.users u.id) u).isPendingUser = true ↔
      (mergeUserResponse (s.users u.id) u).isPending = some true) ∧
    ((mergeUserResponse (s.users u.id) u).isOwner = true ↔
      ∃ role, (mergeUserResponse (s.users u.id) u).globalRole = some role ∧
        role.name = ROLE_Owner) ∧
    ((mergeUserResponse (s.users u.id) u).globalRole = none →
      (mergeUserResponse (s.users u.id) u).isOwner = false ∧
      (mergeUserResponse (s.users u.id) u).isDefaultUser = false) := by
  have hpure := derived_booleans_pure (mergeUserResponse (s.users u.id) u).isPending
    (mergeUserResponse (s.users u.id) u).globalRole
  refine ⟨by rw [addUsers_single]; simp, ?_, ?_, ?_, ?_⟩
  · rw [mergeUserResponse_isDefaultUser]
    exact hpure.1
  · rw [mergeUserResponse_isPendingUser]
    exact hpure.2.1
  · rw [mergeUserResponse_isOwner]
    exact hpure.2.2.1
  · intro hg
    constructor
    · rw [mergeUserResponse_isOwner]
      exact hpure.2.2.2 hg
    · rw [mergeUserResponse_isDefaultUser, hg]
      simp

/-- Claim C4, witness: a pending user with role name `"owner"` is a
default user. -/
theorem addUsers_derived_booleans_witness :
    (mergeUserResponse (initialState.users "1")
      { id := "1", isPending := some true, globalRole := some { name := "owner" } }).isDefaultUser
      = true :=
  (addUsers_derived_booleans initialState
    { id := "1", isPending := some true, globalRole := some { name := "owner" } }).2.1.mpr
    ⟨rfl, { name := "owner" }, rfl, rfl⟩

/-- Claim C5: whenever `loginWithCookie`, `loginWithCreds`, `createOwner`
or `acceptInvitation` assigns a non-null `currentUserId`, that id already
keys an entry of `users`: the record is merged via `addUsers` strictly
before the assignment, and the merge always inserts the response's id. -/
theorem login_actions_currentUser (s : IUsersState) (u : IUserResponse) :
    ((addUsers s [u]).users u.id).isSome = true ∧
    (loginWithCookie s (some u)).currentUserId = some u.id ∧
    ((loginWithCookie s (some u)).users u.id).isSome = true ∧
    (loginWithCreds s (some u)).currentUserId = some u.id ∧
    ((loginWithCreds s (some u)).users u.id).isSome = true ∧
    (createOwner s (some u)).currentUserId = some u.id ∧
    ((createOwner s (some u)).users u.id).isSome = true ∧
    (acceptInvitation s (some u)).currentUserId = some u.id ∧
    ((acceptInvitation s (some u)).users u.id).isSome = true := by
  have h : ((addUsers s [u]).users u.id).isSome = true := by
    rw [addUsers_single]
    simp
  exact ⟨h, rfl, h, rfl, h, rfl, h, rfl, h⟩

/-- Claim C6: `logout` is atomic on failure — a failed remote call
propagates its error and leaves `currentUserId`, `users` and
`currentUserCloudInfo` untouched; a successful call clears
`currentUserId` and `currentUserCloudInfo` to null. -/
theorem logout_atomic (s : IUsersState) (e : String) :
    (logout s (Except.error e) = (s, Except.error e)) ∧
    (logout s (Except.ok ())).1.currentUserId = none ∧
    (logout s (Except.ok ())).1.currentUserCloudInfo = none ∧
    (logout s (Except.ok ())).1.users = s.users ∧
    (logout s (Except.ok ())).1.initialized = s.initialized ∧
    (logout s (Except.ok ())).2 = Except.ok () :=
  ⟨rfl, rfl, rfl, rfl, rfl, rfl⟩

/-- Claim C7: `initialize` never surfaces an error (a failed guarded
login attempt leaves the state unchanged), is a no-op once `initialized`
is true, and `initialized` never reverts from true to false under any
modelled store operation. -/
theorem initialized_one_shot (s : IUsersState)
    (r : Except String (Option IUserResponse)) :
    (s.initialized = true → initializeAction s r = s) ∧
    (∀ e, initializeAction s (Except.error e) = s) ∧
    (s.initialized = true → (initializeAction s r).initialized = true) ∧
    (∀ l, (addUsers s l).initialized = s.initialized) ∧
    (∀ i, (deleteUserById s i).initialized = s.initialized) ∧
    (∀ a, (setPersonalizationAnswers s a).initialized = s.initialized) ∧
    (∀ a, ((logout s a).1).initialized = s.initialized) ∧
    (∀ c, ((fetchUserCloudAccount s c).1).initialized = s.initialized) ∧
    (∀ u, (loginWithCookie s u).initialized = s.initialized) ∧
    (∀ u, (loginWithCreds s u).initialized = s.initialized) ∧
    (∀ u, (createOwner s u).initialized = s.initialized) ∧
    (∀ u, (acceptInvitation s u).initialized = s.initialized) := by
  refine ⟨?_, ?_, ?_, ?_, ?_, ?_, ?_, ?_, ?_, ?_, ?_, ?_⟩
  · intro h; simp [initializeAction, h]
  · intro e
    simp [initializeAction, initializeAttempt]
  · intro h; simp [initializeAction, h]
  · intro l; exact (addUsers_preserves_frame l s).1
  · intro i; rfl
  · intro a
    unfold setPersonalizationAnswers
    cases currentUser s <;> rfl
  · intro a; cases a <;> rfl
  · intro c; cases c <;> rfl
  · intro u
    cases u with
    | none => rfl
    | some v => exact (addUsers_preserves_frame [v] s).1
  · intro u
    cases u with
    | none => rfl
    | some v => exact (addUsers_preserves_frame [v] s).1
  · intro u
    cases u with
    | none => rfl
    | some v => exact (addUsers_preserves_frame [v] s).1
  · intro u
    cases u with
    | none => rfl
    | some v => exact (addUsers_preserves_frame [v] s).1

/-- Claim C7, witness: calling `initialize` on an already-initialized
state performs no action. -/
theorem initialized_one_shot_witness :
    initializeAction { initialState with initialized := true } (Except.ok none)
      = { initialState with initialized := true } :=
  (initialized_one_shot { initialState with initialized := true } (Except.ok none)).1 rfl

/-- Claim C8: `reinviteUser` fails exactly when the first invite result's
`emailSent` flag is false, and the synthesized error carries the
server-reported error field as its message; with `emailSent` true it
returns normally. -/
theorem reinviteUser_emailSent (first : IInviteResponse) (rest : List IInviteResponse) :
    (first.user.emailSent = true → reinviteUser (first :: rest) = Except.ok ()) ∧
    (∀ m, first.user.emailSent = false → first.error = some m →
      reinviteUser (first :: rest) = Except.error m) ∧
    ((∃ e, reinviteUser (first :: rest) = Except.error e) ↔ first.user.emailSent = false) := by
  refine ⟨?_, ?_, ?_⟩
  · intro h; simp [reinviteUser, h]
  · intro m h hm; simp [reinviteUser, h, hm]
  · constructor
    · rintro ⟨e, he⟩
      by_contra hb
      simp only [Bool.not_eq_false] at hb
      simp [reinviteUser, hb] at he
    · intro h
      exact ⟨(first.error.getD ""), by simp [reinviteUser, h]⟩

/-- Claim C8, witness: a response with `emailSent = false` and
`error = "bounced"` makes `reinviteUser` fail with message `"bounced"`. -/
theorem reinviteUser_emailSent_witness :
    reinviteUser [{ user := { id := "u1", email := "a@x.com", emailSent := false },
                    error := some "bounced" }] = Except.error "bounced" :=
  (reinviteUser_emailSent _ []).2.1 "bounced" rfl rfl

/-- Claim C9: `deleteUserById` removes exactly the given key, leaves every
other entry unchanged, is a no-op when the key is absent, and never
modifies `currentUserId` (so deleting the current user leaves the pointer
dangling), nor `initialized` or `currentUserCloudInfo`. -/
theorem deleteUserById_spec (s : IUsersState) (userId : String) :
    ((deleteUserById s userId).users userId = none) ∧
    (∀ k, k ≠ userId → (deleteUserById s userId).users k = s.users k) ∧
    (s.users userId = none → deleteUserById s userId = s) ∧
    ((deleteUserById s userId).currentUserId = s.currentUserId) ∧
    ((deleteUserById s userId).initialized = s.initialized) ∧
    ((deleteUserById s userId).currentUserCloudInfo = s.currentUserCloudInfo) := by
  refine ⟨by simp [deleteUserById], ?_, ?_, rfl, rfl, rfl⟩
  · intro k hk; simp [deleteUserById, hk]
  · intro h
    ext k : 2 <;> try rfl
    · by_cases hk : k = userId
      · subst hk; simp [deleteUserById, h]
      · simp [deleteUserById, hk]

/-- Claim C9, witness: deleting an absent id from the initial state is a
no-op. -/
theorem deleteUserById_spec_witness :
    deleteUserById initialState "1" = initialState :=
  (deleteUserById_spec initialState "1").2.2.1 rfl

/-- Claim C10: `addUsers` modifies only the `users` mapping —
`initialized`, `currentUserId` and `currentUserCloudInfo` are unchanged
for every input list. -/
theorem addUsers_frame (s : IUsersState) (l : List IUserResponse) :
    (addUsers s l).initialized = s.initialized ∧
    (addUsers s l).currentUserId = s.currentUserId ∧
    (addUsers s l).currentUserCloudInfo = s.currentUserCloudInfo :=
  addUsers_preserves_frame l s
